import Mathlib

/-
Verification development for the kalshi-dune-community-data pipeline.

Shallow embedding of the duplicate-safe table-sync protocol of
scripts/dune_uploader.py and the paginated-fetch loop of
scripts/kalshi_collector.py.  External effects (the HTTP calls, the
filesystem marker store, pandas I/O) are modelled as explicit inputs:
each remote call is represented by the outcome the surrounding code
can observe (a status code, a success boolean, a page response), and
results record the calls the code performed.
-/

namespace KalshiDune

/-- Scalar cell of a tabular dataset.  A pandas numeric cell is a rational
number, positive or negative infinity, or NaN (modelled as `null`); an
object cell is a string or NaN. -/
inductive Cell where
  | num (q : ℚ)
  | pinf
  | ninf
  | null
  | str (s : String)
deriving DecidableEq

/-- One column of a DataFrame: its label, its dtype class (`numeric` is
true for float/int dtype columns, the ones `select_dtypes(include=[float,
int])` picks), and its cells. -/
structure Column where
  name : String
  numeric : Bool
  cells : List Cell
deriving DecidableEq

/-- A DataFrame, column oriented, columns in display order. -/
abbrev Frame := List Column

/-- Membership test for a column label, as `col in df.columns`. -/
def hasCol (df : Frame) (c : String) : Bool :=
  df.any (fun col => col.name = c)

/-- Selection of the column with a given label (first match). -/
def findCol (df : Frame) (c : String) : Option Column :=
  df.find? (fun col => col.name = c)

/-- Row count of a frame (length of its first column). -/
def nrows (df : Frame) : Nat :=
  (df.head?.map (fun col => col.cells.length)).getD 0

/-- Label rename, as `df.rename` with a one-entry columns mapping. -/
def renameColumn (df : Frame) (old new : String) : Frame :=
  df.map (fun col => if col.name = old then { col with name := new } else col)

/-- A column whose every cell is the empty-string sentinel, as produced by
a reindex fill or by assigning a scalar empty string. -/
def emptyColumn (c : String) (n : Nat) : Column :=
  { name := c, numeric := false, cells := List.replicate n (Cell.str "") }

/-- The `expected_events_columns` literal of `upload_daily_data`
(dune_uploader.py lines 431-436), identical to the column names of
`define_events_schema`. -/
def expected_events_columns : List String :=
  ["event_ticker", "series_ticker", "sub_title", "title",
   "collateral_return_type", "mutually_exclusive", "category",
   "price_level_structure", "available_on_brokers",
   "collection_date", "date", "strike_date", "strike_period"]

/-- The `expected_markets_columns` literal of `upload_daily_data`
(dune_uploader.py lines 478-495), identical to the column names of
`define_markets_schema`. -/
def expected_markets_columns : List String :=
  ["ticker", "event_ticker", "market_type", "title", "subtitle",
   "yes_sub_title", "no_sub_title", "open_time", "close_time",
   "expected_expiration_time", "expiration_time", "latest_expiration_time",
   "settlement_timer_seconds", "status", "response_price_units",
   "notional_value", "notional_value_dollars", "yes_bid", "yes_bid_dollars",
   "yes_ask", "yes_ask_dollars", "no_bid", "no_bid_dollars",
   "no_ask", "no_ask_dollars", "last_price", "last_price_dollars",
   "previous_yes_bid", "previous_yes_bid_dollars", "previous_yes_ask",
   "previous_yes_ask_dollars", "previous_price", "previous_price_dollars",
   "volume", "volume_24h", "liquidity", "liquidity_dollars",
   "open_interest", "result", "can_close_early", "expiration_value",
   "category", "risk_limit_cents", "strike_type", "custom_strike",
   "rules_primary", "rules_secondary", "tick_size", "mve_collection_ticker",
   "mve_selected_legs", "collection_date", "date", "floor_strike",
   "early_close_condition", "cap_strike", "primary_participant_key",
   "fee_waiver_expiration_time"]

/-- Events reorder step of `upload_daily_data` (dune_uploader.py lines
427-440): rename DATE to date, then
`available_columns = [col for col in expected_events_columns if col in
df_events.columns]` followed by `df_events[available_columns]` - the
schema columns present in the input, in schema order; absent schema
columns are NOT filled. -/
def events_reorder (df : Frame) : Frame :=
  let df2 := renameColumn df "DATE" "date"
  let available_columns := expected_events_columns.filter (fun c => hasCol df2 c)
  available_columns.filterMap (fun c => findCol df2 c)

/-- Markets preparation step of `upload_daily_data` (dune_uploader.py lines
468-475): rename DATE to date, then add an empty
`primary_participant_key` column when the input lacks it. -/
def markets_prep (df : Frame) : Frame :=
  let df2 := renameColumn df "DATE" "date"
  if hasCol df2 "primary_participant_key" then df2
  else df2 ++ [emptyColumn "primary_participant_key" (nrows df2)]

/-- Markets reorder step of `upload_daily_data` (dune_uploader.py line 498):
`df_markets.reindex(columns=expected_markets_columns, fill_value=empty)` -
every schema column in schema order, a present column kept, an absent one
filled with the empty sentinel. -/
def markets_reorder (df : Frame) : Frame :=
  let df3 := markets_prep df
  expected_markets_columns.map (fun c => (findCol df3 c).getD (emptyColumn c (nrows df3)))

/-- The 1e15 magnitude guard of `clean_data_for_upload`. -/
def bigLimit : ℚ := 10 ^ 15

/-- Per-cell effect, on a numeric column, of the two masking passes of
`clean_data_for_upload` (dune_uploader.py lines 164-181): infinities
become NaN, then any remaining value of magnitude strictly above 1e15
becomes NaN (the large-value mask requires `notnull`, so NaN stays NaN). -/
def clean_numeric_cell (c : Cell) : Cell :=
  match c with
  | Cell.pinf => Cell.null
  | Cell.ninf => Cell.null
  | Cell.num q => if bigLimit < |q| then Cell.null else Cell.num q
  | c => c

/-- Per-cell effect of `df_clean.fillna(empty)` (dune_uploader.py line 184):
every NaN, in every column, becomes the empty-string sentinel. -/
def fillna_cell (c : Cell) : Cell :=
  if c = Cell.null then Cell.str "" else c

/-- The sanitization pass `clean_data_for_upload` (dune_uploader.py lines
157-192): the two numeric masks on every numeric column, then `fillna` on
the whole frame. -/
def clean_data_for_upload (df : Frame) : Frame :=
  df.map (fun col =>
    let cells1 := if col.numeric then col.cells.map clean_numeric_cell else col.cells
    { col with cells := cells1.map fillna_cell })

/-- The insert call `insert_data_to_table_direct` (dune_uploader.py lines
194-229): it always serializes `clean_data_for_upload df` (the transmitted
frame, second component) and returns True exactly when the POST succeeded
(`insertOk`, the observable outcome of the remote call). -/
def insert_data_to_table_direct (insertOk : Bool) (df : Frame) : Bool × Frame :=
  (insertOk, clean_data_for_upload df)

/-- What reading the upload-marker file for one (table, collection_date)
pair yields inside `check_if_todays_data_exists`: the filesystem access
raised (`err`), no marker file exists (`absent`), or the marker file
exists with modification time `mtime` (`present`). -/
inductive MarkerRead where
  | err
  | absent
  | present (mtime : Int)
deriving DecidableEq

/-- The marker check `check_if_todays_data_exists` (dune_uploader.py lines
231-259) for the (table, collection_date) pair whose marker read is `m`:
a present marker is fresh when now minus its modification time is under
86400 seconds; a stale marker is deleted and reported absent; any
exception in the check is caught and reported absent. -/
def check_if_todays_data_exists (now : Int) (m : MarkerRead) : Bool :=
  match m with
  | MarkerRead.err => false
  | MarkerRead.absent => false
  | MarkerRead.present mtime => decide (now - mtime < 86400)

/-- Observable outcome of one run of the duplicate-prevention strategy for
one table: the boolean it returns, how many insert and clear calls it
performed, whether it wrote a new upload marker, and the remote table
contents afterwards.  The remote table is the list of successfully
inserted bulk payloads (a cleared table is the empty list). -/
structure StrategyResult where
  success : Bool
  insertCalls : Nat
  clearCalls : Nat
  markerWritten : Bool
  table : List Frame
deriving DecidableEq

/-- Effect of one `insert_data_to_table_direct` call on the remote table:
a successful POST appends the transmitted (sanitized) frame, a failed one
changes nothing. -/
def insertEffect (insertOk : Bool) (table : List Frame) (df : Frame) : List Frame :=
  if insertOk then table ++ [clean_data_for_upload df] else table

/-- The REPLACE path `clear_todays_data_via_rebuild` (dune_uploader.py
lines 307-318): `clear_table_completely` first (lines 141-155, one clear
call whose observable outcome is `clearOk`); when it fails the function
returns False without attempting the insert; when it succeeds the insert
runs and its outcome is returned. -/
def clear_todays_data_via_rebuild (clearOk insertOk : Bool)
    (table : List Frame) (df_today : Frame) : StrategyResult :=
  if clearOk then
    { success := insertOk, insertCalls := 1, clearCalls := 1,
      markerWritten := false, table := insertEffect insertOk [] df_today }
  else
    { success := false, insertCalls := 0, clearCalls := 1,
      markerWritten := false, table := table }

/-- The strategy `smart_append_data` (dune_uploader.py lines 276-305).
With append_mode off it delegates to `clear_todays_data_via_rebuild`.
With append_mode on it consults `check_if_todays_data_exists`; a fresh
marker means zero insert calls and success; otherwise exactly one insert
call runs and `mark_successful_upload` writes the marker exactly when
that insert returned True. -/
def smart_append_data (append_mode : Bool) (now : Int) (m : MarkerRead)
    (clearOk insertOk : Bool) (table : List Frame) (df_today : Frame) : StrategyResult :=
  if append_mode then
    if check_if_todays_data_exists now m then
      { success := true, insertCalls := 0, clearCalls := 0,
        markerWritten := false, table := table }
    else
      { success := insertOk, insertCalls := 1, clearCalls := 0,
        markerWritten := insertOk, table := insertEffect insertOk table df_today }
  else
    clear_todays_data_via_rebuild clearOk insertOk table df_today

/-- Endpoint classification of a Dune API request, as the substring test
on the endpoint string in `make_dune_request` distinguishes the
create-table endpoint from the per-table clear and insert endpoints. -/
inductive Endpoint where
  | createTable
  | clearTable (table : String)
  | insertRows (table : String)
deriving DecidableEq

/-- Outcome of `make_dune_request` (dune_uploader.py lines 72-109) as a
function of the response status: a 409 on the create-table endpoint is
converted to the already-existed success body (`some true`); any other
status of 400 and above makes `raise_for_status` raise, the exception is
caught and None (`none`) is returned; otherwise the parsed body
(`some false`, the already-existed flag being absent) is returned. -/
def make_dune_request (ep : Endpoint) (status : Nat) : Option Bool :=
  if status = 409 ∧ ep = Endpoint.createTable then some true
  else if 400 ≤ status then none
  else some false

/-- Observable outcome of `create_table_if_not_exists`. -/
inductive CreateOutcome where
  | created
  | alreadyExists
  | failed
deriving DecidableEq

/-- The creation protocol `create_table_if_not_exists` (dune_uploader.py
lines 115-139): a truthy result with the already-existed flag is the
AlreadyExists success branch, a truthy result without it is the Created
branch (both return True to the caller), a None result is the failure
branch (returns False). -/
def create_table_if_not_exists (status : Nat) : CreateOutcome :=
  match make_dune_request Endpoint.createTable status with
  | some true => CreateOutcome.alreadyExists
  | some false => CreateOutcome.created
  | none => CreateOutcome.failed

/-- The boolean `create_table_if_not_exists` hands back to
`upload_daily_data`: True on both success branches. -/
def table_created (status : Nat) : Bool :=
  create_table_if_not_exists status ≠ CreateOutcome.failed

/-- Modelled from the spec, section 6 (external interface of the
destination warehouse, not code of this repository): the create-table
endpoint answers 200 when the table does not yet exist, after which it
exists, and answers 409 Conflict when it already exists. -/
def duneCreateResponse (tableIsThere : Bool) : Nat × Bool :=
  if tableIsThere then (409, tableIsThere) else (200, true)

/-- One `create_table_if_not_exists` call against the modelled remote:
the outcome observed and the remote existence state afterwards. -/
def ensure_table_run (tableIsThere : Bool) : CreateOutcome × Bool :=
  ((create_table_if_not_exists (duneCreateResponse tableIsThere).1),
   (duneCreateResponse tableIsThere).2)

/-- Python falsiness of the cursor value `response.get(..)`: the key is
absent, or the cursor is the empty string. -/
def cursorDone : Option String → Bool
  | none => true
  | some s => s = ""

/-- The body of the pagination loop of `get_all_paginated_data`
(kalshi_collector.py lines 116-150; the alternate revision at lines
175-231 differs only in its safety bound and key dispatch).  `server i`
is what the request for page `i` yields to the caller: `none` when
`make_request` returned None (timeout, non-2xx, connection failure) or
the expected resource key was missing from the body, and otherwise the
item array and the cursor of the response.  `remaining` counts the pages
the safety check still allows after the current one: the loop increments
`page` and breaks when it passes the bound, so `remaining` is bound minus
page, and the top-level call starts at page 1 with bound minus one.
Returns the accumulated items and the number of requests issued from the
current page on. -/
def pagLoop {α : Type} (server : Nat → Option (List α × Option String)) :
    Nat → Nat → List α → List α × Nat
  | remaining, page, acc =>
    match server page with
    | none => (acc, 1)
    | some (items, cur) =>
      if items.isEmpty then (acc, 1)
      else if cursorDone cur then (acc ++ items, 1)
      else
        match remaining with
        | 0 => (acc ++ items, 1)
        | r + 1 =>
          ((pagLoop server r (page + 1) (acc ++ items)).1,
           (pagLoop server r (page + 1) (acc ++ items)).2 + 1)

/-- The paginated fetch `get_all_paginated_data` with safety bound
`maxPages` (50 in the primary revision, 20 in the alternate one):
accumulated items of all pages fetched, plus the number of requests
issued. -/
def get_all_paginated_data {α : Type} (server : Nat → Option (List α × Option String))
    (maxPages : Nat) : List α × Nat :=
  pagLoop server (maxPages - 1) 1 []

/-- A page response that keeps the loop going: some items and a
non-falsy cursor. -/
def goodResp {α : Type} (r : Option (List α × Option String)) : Prop :=
  ∃ items cur, r = some (items, cur) ∧ items ≠ [] ∧ cursorDone cur = false

/-- The item array of the response for page `i` (empty when the request
failed). -/
def itemsOf {α : Type} (server : Nat → Option (List α × Option String)) (i : Nat) :
    List α :=
  match server i with
  | some (items, _) => items
  | none => []

/-- Concatenation, in order, of the item arrays of pages
`start, start+1, ..., start+k-1`. -/
def pagesConcat {α : Type} (server : Nat → Option (List α × Option String))
    (start k : Nat) : List α :=
  (((List.range k).map (fun j => itemsOf server (start + j)))).flatten

/-- Per-resource observable environment of one `upload_daily_data` branch
(dune_uploader.py lines 409-506): whether the snapshot CSV for the
resource exists, whether reading it raised (the branch try block catches
any exception), whether `create_table_if_not_exists` returned True, and
what `smart_append_data` returned. -/
structure ResourceEnv where
  hasFile : Bool
  readOk : Bool
  tableOk : Bool
  appendOk : Bool
deriving DecidableEq

/-- Result recorded for one resource type in the `results` dict of
`upload_daily_data`: it stays False unless the file exists, reading it
did not raise, the table creation returned True and the append
succeeded. -/
def processResource (r : ResourceEnv) : Bool :=
  if r.hasFile then
    if r.readOk then
      if r.tableOk then r.appendOk else false
    else false
  else false

/-- The `upload_daily_data` result pair: each resource type is processed
independently, events first, markets second (dune_uploader.py lines
400-525). -/
def upload_daily_data (ev mk : ResourceEnv) : Bool × Bool :=
  (processResource ev, processResource mk)

/-- The process exit code of the `__main__` block (dune_uploader.py lines
527-541): 1 when construction or the run raised an unhandled exception,
else 0 when at least one resource type succeeded, else 1. -/
def mainExitCode (initOk : Bool) (ev mk : ResourceEnv) : Nat :=
  if initOk then
    if (upload_daily_data ev mk).1 || (upload_daily_data ev mk).2 then 0 else 1
  else 1

/-- The fillna pass never leaves a NaN behind. -/
lemma fillna_cell_ne_null (c : Cell) : fillna_cell c ≠ Cell.null := by
  by_cases h : c = Cell.null <;> simp [fillna_cell, h]

/-- After the numeric masks and fillna, a cell is not an infinity and any
numeric value it still holds has magnitude at most 1e15. -/
lemma clean_numeric_fillna_spec (c : Cell) :
    fillna_cell (clean_numeric_cell c) ≠ Cell.pinf ∧
    fillna_cell (clean_numeric_cell c) ≠ Cell.ninf ∧
    ∀ q, fillna_cell (clean_numeric_cell c) = Cell.num q → |q| ≤ bigLimit := by
  cases c with
  | num q =>
    by_cases h : bigLimit < |q|
    · simp [clean_numeric_cell, fillna_cell, h]
    · simp only [clean_numeric_cell, if_neg h]
      simp [fillna_cell]
      exact le_of_not_lt h
  | pinf => simp [clean_numeric_cell, fillna_cell]
  | ninf => simp [clean_numeric_cell, fillna_cell]
  | null => simp [clean_numeric_cell, fillna_cell]
  | str s => simp [clean_numeric_cell, fillna_cell]

/-- C1: in APPEND mode, for the (table, collection_date) pair whose marker
read is `m`: a fresh marker (exact date, modification time within the
last 24 hours) yields zero insert calls and a success report with no new
marker; no marker, or a marker at least 24 hours old, yields exactly one
insert call, success exactly when that insert succeeded, and a new marker
written exactly when that insert succeeded. -/
theorem append_mode_dedup (now : Int) (m : MarkerRead) (clearOk insertOk : Bool)
    (table : List Frame) (df : Frame) :
    ((∃ t, m = MarkerRead.present t ∧ now - t < 86400) →
      (smart_append_data true now m clearOk insertOk table df).insertCalls = 0 ∧
      (smart_append_data true now m clearOk insertOk table df).success = true ∧
      (smart_append_data true now m clearOk insertOk table df).markerWritten = false) ∧
    ((m = MarkerRead.absent ∨ ∃ t, m = MarkerRead.present t ∧ 86400 ≤ now - t) →
      (smart_append_data true now m clearOk insertOk table df).insertCalls = 1 ∧
      (smart_append_data true now m clearOk insertOk table df).success = insertOk ∧
      ((smart_append_data true now m clearOk insertOk table df).markerWritten = true ↔
        insertOk = true)) := by
  constructor
  · rintro ⟨t, rfl, h⟩
    simp [smart_append_data, check_if_todays_data_exists, h]
  · rintro (rfl | ⟨t, rfl, h⟩)
    · simp [smart_append_data, check_if_todays_data_exists]
    · have hx : ¬(now - t < 86400) := by omega
      simp [smart_append_data, check_if_todays_data_exists, hx]

/-- Witness for C1: with a marker written at time 0 checked at time 0 the
run inserts nothing; with no marker it performs one insert call. -/
theorem append_mode_dedup_witness :
    (smart_append_data true 0 (MarkerRead.present 0) true true [] []).insertCalls = 0 ∧
    (smart_append_data true 0 MarkerRead.absent true true [] []).insertCalls = 1 := by
  constructor
  · exact ((append_mode_dedup 0 (MarkerRead.present 0) true true [] []).1
      ⟨0, rfl, by norm_num⟩).1
  · exact ((append_mode_dedup 0 MarkerRead.absent true true [] []).2 (Or.inl rfl)).1

/-- C3: in REPLACE mode the run never attempts the insert when the clear
failed, succeeds exactly when both the clear and the insert succeed, and
two consecutive successful REPLACE runs for the same collection_date
leave the remote table holding exactly one copy of the (sanitized)
dataset. -/
theorem replace_mode_determinism (clearOk insertOk clearOk2 insertOk2 : Bool)
    (table : List Frame) (df : Frame) :
    ∀ r1 r2, r1 = clear_todays_data_via_rebuild clearOk insertOk table df →
      r2 = clear_todays_data_via_rebuild clearOk2 insertOk2 r1.table df →
      (clearOk = false → r1.insertCalls = 0) ∧
      r1.success = (clearOk && insertOk) ∧
      (clearOk = true → insertOk = true → clearOk2 = true → insertOk2 = true →
        r2.table = [clean_data_for_upload df]) := by
  rintro r1 r2 rfl rfl
  cases clearOk <;> cases insertOk <;> cases clearOk2 <;> cases insertOk2 <;>
    simp [clear_todays_data_via_rebuild, insertEffect]

/-- Witness for C3: a fully successful pair of rebuild runs at a concrete
dataset ends with exactly one copy in the table. -/
theorem replace_mode_determinism_witness :
    (clear_todays_data_via_rebuild true true
      (clear_todays_data_via_rebuild true true [] []).table []).table
      = [clean_data_for_upload []] := by
  exact ((replace_mode_determinism true true true true [] []) _ _ rfl rfl).2.2
    rfl rfl rfl rfl

/-- C4: a 409 Conflict from the create-table endpoint is reported as the
AlreadyExists success outcome; any other status of 400 and above is a
hard failure; and against the modelled remote, creating the same table
twice yields Created then AlreadyExists, never a failure. -/
theorem idempotent_table_creation :
    create_table_if_not_exists 409 = CreateOutcome.alreadyExists ∧
    (∀ s, 400 ≤ s → s ≠ 409 → create_table_if_not_exists s = CreateOutcome.failed) ∧
    (ensure_table_run false).1 = CreateOutcome.created ∧
    (ensure_table_run (ensure_table_run false).2).1 = CreateOutcome.alreadyExists := by
  refine ⟨by decide, ?_, by decide, by decide⟩
  intro s h1 h2
  simp [create_table_if_not_exists, make_dune_request, h1, h2]

/-- Witness for C4: a 500 response is a hard failure. -/
theorem idempotent_table_creation_witness :
    create_table_if_not_exists 500 = CreateOutcome.failed :=
  idempotent_table_creation.2.1 500 (by norm_num) (by norm_num)

/-- C5: every insert transmits exactly the sanitized frame; the
sanitization maps each infinity, each numeric value of magnitude above
1e15, and each NaN to the empty-string sentinel; and in the sanitized
frame no cell is NaN and no cell of a numeric column is an infinity or a
numeric value of magnitude above 1e15. -/
theorem sanitization_pass (insertOk : Bool) (df : Frame) :
    (insert_data_to_table_direct insertOk df).2 = clean_data_for_upload df ∧
    fillna_cell (clean_numeric_cell Cell.pinf) = Cell.str "" ∧
    fillna_cell (clean_numeric_cell Cell.ninf) = Cell.str "" ∧
    fillna_cell (clean_numeric_cell Cell.null) = Cell.str "" ∧
    (∀ q : ℚ, bigLimit < |q| → fillna_cell (clean_numeric_cell (Cell.num q)) = Cell.str "") ∧
    ∀ col, col ∈ clean_data_for_upload df →
      (∀ c, c ∈ col.cells → c ≠ Cell.null) ∧
      (col.numeric = true → ∀ c, c ∈ col.cells →
        c ≠ Cell.pinf ∧ c ≠ Cell.ninf ∧ ∀ q, c = Cell.num q → |q| ≤ bigLimit) := by
  refine ⟨rfl, by decide, by decide, by decide, ?_, ?_⟩
  · intro q hq
    simp [clean_numeric_cell, fillna_cell, hq]
  · intro col hcol
    rcases List.mem_map.1 hcol with ⟨col0, hmem, rfl⟩
    constructor
    · intro c hc
      rcases List.mem_map.1 hc with ⟨c0, hc0, rfl⟩
      exact fillna_cell_ne_null c0
    · intro hnum c hc
      simp only at hc hnum
      rw [if_pos hnum] at hc
      rw [List.map_map] at hc
      rcases List.mem_map.1 hc with ⟨c0, hc0, rfl⟩
      exact clean_numeric_fillna_spec c0

/-- Witness for C5: the sanitized form of a one-column frame holding an
infinity, a NaN and an oversized value is all sentinels. -/
theorem sanitization_pass_witness :
    ∀ q : ℚ, bigLimit < |q| →
      fillna_cell (clean_numeric_cell (Cell.num q)) = Cell.str "" := by
  intro q hq
  exact (sanitization_pass true []).2.2.2.2.1 q hq

/-- C10: when reading the upload marker raises, the check reports the
marker absent and the APPEND run proceeds with exactly one insert call,
succeeding exactly when the insert succeeded. -/
theorem marker_check_fails_open (now : Int) (clearOk insertOk : Bool)
    (table : List Frame) (df : Frame) :
    check_if_todays_data_exists now MarkerRead.err = false ∧
    (smart_append_data true now MarkerRead.err clearOk insertOk table df).insertCalls = 1 ∧
    (smart_append_data true now MarkerRead.err clearOk insertOk table df).success = insertOk := by
  simp [smart_append_data, check_if_todays_data_exists]

/-- Witness for C10 at a concrete run. -/
theorem marker_check_fails_open_witness :
    check_if_todays_data_exists 0 MarkerRead.err = false ∧
    (smart_append_data true 0 MarkerRead.err true true [] []).insertCalls = 1 ∧
    (smart_append_data true 0 MarkerRead.err true true [] []).success = true :=
  marker_check_fails_open 0 true true [] []

/-- C9: the process exits 0 exactly when construction and the run did not
raise and at least one resource type uploaded successfully, exits 1
exactly when an unhandled exception occurred or both resource types
failed, and the markets result never depends on the events environment
(the markets attempt is not prevented by an events failure). -/
theorem aggregate_exit_code (initOk : Bool) (ev ev2 mk : ResourceEnv) :
    (mainExitCode initOk ev mk = 0 ↔
      (initOk = true ∧ (processResource ev = true ∨ processResource mk = true))) ∧
    (mainExitCode initOk ev mk = 1 ↔
      (initOk = false ∨ (processResource ev = false ∧ processResource mk = false))) ∧
    (upload_daily_data ev mk).2 = (upload_daily_data ev2 mk).2 := by
  rcases ev with ⟨a1, a2, a3, a4⟩
  rcases ev2 with ⟨b1, b2, b3, b4⟩
  rcases mk with ⟨c1, c2, c3, c4⟩
  revert initOk a1 a2 a3 a4 b1 b2 b3 b4 c1 c2 c3 c4
  decide

/-- Witness for C9: events succeeding and markets failing yields exit
code 0. -/
theorem aggregate_exit_code_witness :
    mainExitCode true ⟨true, true, true, true⟩ ⟨true, true, true, false⟩ = 0 := by
  exact (aggregate_exit_code true ⟨true, true, true, true⟩ ⟨true, true, true, true⟩
    ⟨true, true, true, false⟩).1.mpr ⟨rfl, Or.inl (by decide)⟩

/-- A failed request stops the loop at once, keeping the accumulator. -/
lemma pagLoop_none {α : Type} (server : Nat → Option (List α × Option String))
    (remaining page : Nat) (acc : List α) (h : server page = none) :
    pagLoop server remaining page acc = (acc, 1) := by
  simp [pagLoop, h]

/-- An empty item array stops the loop at once, keeping the accumulator. -/
lemma pagLoop_empty {α : Type} (server : Nat → Option (List α × Option String))
    (remaining page : Nat) (acc : List α) (cur : Option String)
    (h : server page = some ([], cur)) :
    pagLoop server remaining page acc = (acc, 1) := by
  simp [pagLoop, h]

/-- A falsy cursor stops the loop after appending the page's items. -/
lemma pagLoop_done {α : Type} (server : Nat → Option (List α × Option String))
    (remaining page : Nat) (acc items : List α) (cur : Option String)
    (h : server page = some (items, cur)) (hne : items ≠ [])
    (hd : cursorDone cur = true) :
    pagLoop server remaining page acc = (acc ++ items, 1) := by
  simp [pagLoop, h, hne, hd]

/-- With the safety budget exhausted the loop stops after appending the
page's items even though the cursor asks for more. -/
lemma pagLoop_bound_stop {α : Type} (server : Nat → Option (List α × Option String))
    (page : Nat) (acc items : List α) (cur : Option String)
    (h : server page = some (items, cur)) (hne : items ≠ [])
    (hd : cursorDone cur = false) :
    pagLoop server 0 page acc = (acc ++ items, 1) := by
  simp [pagLoop, h, hne, hd]

/-- A page with items and a live cursor recurses into the next page. -/
lemma pagLoop_step {α : Type} (server : Nat → Option (List α × Option String))
    (r page : Nat) (acc items : List α) (cur : Option String)
    (h : server page = some (items, cur)) (hne : items ≠ [])
    (hd : cursorDone cur = false) :
    pagLoop server (r + 1) page acc =
      ((pagLoop server r (page + 1) (acc ++ items)).1,
       (pagLoop server r (page + 1) (acc ++ items)).2 + 1) := by
  conv_lhs => rw [pagLoop]
  simp [h, hne, hd]

lemma pagesConcat_zero {α : Type} (server : Nat → Option (List α × Option String))
    (start : Nat) : pagesConcat server start 0 = [] := by
  simp [pagesConcat]

lemma pagesConcat_succ_left {α : Type} (server : Nat → Option (List α × Option String))
    (start k : Nat) :
    pagesConcat server start (k + 1) =
      itemsOf server start ++ pagesConcat server (start + 1) k := by
  have he : ((fun j => itemsOf server (start + j)) ∘ Nat.succ) =
      fun j => itemsOf server (start + 1 + j) := by
    funext j
    simp only [Function.comp]
    congr 1
    omega
  simp only [pagesConcat, List.range_succ_eq_map, List.map_cons, List.map_map,
    List.flatten_cons, Nat.add_zero, he]

lemma pagesConcat_succ_right {α : Type} (server : Nat → Option (List α × Option String))
    (start k : Nat) :
    pagesConcat server start (k + 1) =
      pagesConcat server start k ++ itemsOf server (start + k) := by
  simp [pagesConcat, List.range_succ]

/-- Running the loop across `k` consecutive pages that each respond with
items and a live cursor: the loop reaches page `page + k` with those
pages' items appended, having spent `k` of the safety budget and issued
`k` requests on the way. -/
lemma pagLoop_good_run {α : Type} (server : Nat → Option (List α × Option String)) :
    ∀ (k r page : Nat) (acc : List α), k ≤ r →
      (∀ i, page ≤ i → i < page + k → goodResp (server i)) →
      pagLoop server r page acc =
        ((pagLoop server (r - k) (page + k) (acc ++ pagesConcat server page k)).1,
         (pagLoop server (r - k) (page + k) (acc ++ pagesConcat server page k)).2 + k) := by
  intro k
  induction k with
  | zero =>
    intro r page acc _ _
    simp [pagesConcat_zero]
  | succ n ih =>
    intro r page acc hle hgood
    obtain ⟨r2, rfl⟩ : ∃ r2, r = r2 + 1 := ⟨r - 1, by omega⟩
    obtain ⟨items, cur, hsv, hne, hcd⟩ := hgood page (le_refl page) (by omega)
    rw [pagLoop_step server r2 page acc items cur hsv hne hcd]
    rw [ih r2 (page + 1) (acc ++ items) (by omega)
      (fun i h1 h2 => hgood i (by omega) (by omega))]
    have hacc : (acc ++ items) ++ pagesConcat server (page + 1) n =
        acc ++ pagesConcat server page (n + 1) := by
      rw [pagesConcat_succ_left]
      have hit : itemsOf server page = items := by simp [itemsOf, hsv]
      rw [hit, List.append_assoc]
    have hsub : r2 - n = r2 + 1 - (n + 1) := by omega
    have hpage : page + 1 + n = page + (n + 1) := by omega
    rw [hacc, hsub, hpage]
    simp [Nat.add_assoc]

/-- Every run of the loop issues at most `remaining + 1` requests. -/
lemma pagLoop_requests_le {α : Type} (server : Nat → Option (List α × Option String)) :
    ∀ (r page : Nat) (acc : List α), (pagLoop server r page acc).2 ≤ r + 1 := by
  intro r
  induction r with
  | zero =>
    intro page acc
    rcases hsv : server page with _ | ⟨items, cur⟩
    · rw [pagLoop_none server 0 page acc hsv]
    · by_cases hne : items = []
      · rw [hne] at hsv
        rw [pagLoop_empty server 0 page acc cur hsv]
      · by_cases hcd : cursorDone cur
        · rw [pagLoop_done server 0 page acc items cur hsv hne hcd]
        · rw [pagLoop_bound_stop server page acc items cur hsv hne
            (Bool.not_eq_true _ ▸ hcd)]
  | succ n ih =>
    intro page acc
    rcases hsv : server page with _ | ⟨items, cur⟩
    · rw [pagLoop_none server (n + 1) page acc hsv]
      omega
    · by_cases hne : items = []
      · rw [hne] at hsv
        rw [pagLoop_empty server (n + 1) page acc cur hsv]
        omega
      · by_cases hcd : cursorDone cur
        · rw [pagLoop_done server (n + 1) page acc items cur hsv hne hcd]
          omega
        · rw [pagLoop_step server n page acc items cur hsv hne
            (Bool.not_eq_true _ ▸ hcd)]
          have := ih (page + 1) (acc ++ items)
          omega

/-- A source whose pages 1..51 each carry one item and a live cursor and
whose page 52 is the empty array: it signals the end of pagination only
at request 52, past the safety bound of 50. -/
def overlongServer : Nat → Option (List Nat × Option String) :=
  fun i => if i ≤ 51 then some ([i], some "c") else some ([], none)

/-- Counterexample to C6 as stated: for this finite source, which returns
51 pages of items and then signals the end of pagination with an empty
array, the fetch issues only 50 requests and returns the concatenation
of the first 50 pages, not of all 51 - the safety bound truncates the
result before the termination signal is ever seen. -/
theorem pagination_termination_cex :
    (get_all_paginated_data overlongServer 50).2 = 50 ∧
    (get_all_paginated_data overlongServer 50).1 ≠ pagesConcat overlongServer 1 52 ∧
    (get_all_paginated_data overlongServer 50).1 ≠ pagesConcat overlongServer 1 51 := by
  decide

/-- C6 (amended): for every finite source whose termination signal - an
empty item array or a falsy cursor at page `T` - lies within the safety
bound, the fetch returns exactly the concatenation of the pages' items
in order and issues exactly `T` requests, none beyond the one on which
termination was signalled.  (Page `T` contributes its items exactly when
termination came through the cursor; `pagesConcat` over pages 1..T is
that concatenation since an empty terminal page contributes nothing.) -/
theorem pagination_termination {α : Type} (server : Nat → Option (List α × Option String))
    (maxPages T : Nat) (hT1 : 1 ≤ T) (hTb : T ≤ maxPages)
    (hgood : ∀ i, 1 ≤ i → i < T → goodResp (server i))
    (hterm : ∃ items cur, server T = some (items, cur) ∧
      (items = [] ∨ cursorDone cur = true)) :
    get_all_paginated_data server maxPages = (pagesConcat server 1 T, T) := by
  obtain ⟨items, cur, hsv, hcase⟩ := hterm
  obtain ⟨t2, rfl⟩ : ∃ t2, T = t2 + 1 := ⟨T - 1, by omega⟩
  unfold get_all_paginated_data
  rw [pagLoop_good_run server t2 (maxPages - 1) 1 [] (by omega)
    (fun i h1 h2 => hgood i h1 (by omega))]
  have hit : itemsOf server (1 + t2) = items := by
    have h1t : 1 + t2 = t2 + 1 := by omega
    simp [itemsOf, h1t, hsv]
  have hconcat : pagesConcat server 1 (t2 + 1) =
      pagesConcat server 1 t2 ++ items := by
    rw [pagesConcat_succ_right, hit]
  by_cases hne : items = []
  · rw [hne] at hsv
    have h1t : 1 + t2 = t2 + 1 := by omega
    rw [h1t]
    rw [pagLoop_empty server (maxPages - 1 - t2) (t2 + 1) _ cur hsv]
    rw [hconcat, hne]
    simp [Nat.add_comm]
  · have hdone : cursorDone cur = true := by
      rcases hcase with h | h
      · exact absurd h hne
      · exact h
    have h1t : 1 + t2 = t2 + 1 := by omega
    rw [h1t]
    rw [pagLoop_done server (maxPages - 1 - t2) (t2 + 1) _ items cur hsv hne hdone]
    rw [hconcat]
    simp [Nat.add_comm]

/-- A terminating source for the C6 witness: two pages of one item each,
then the empty array on page 3. -/
def shortServer : Nat → Option (List Nat × Option String) :=
  fun i => if i < 3 then some ([i], some "c") else some ([], none)

/-- Witness for C6 (amended) at a concrete terminating source: the two
pages' items are returned in order and exactly three requests (the third
being the terminating one) are issued. -/
theorem pagination_termination_witness :
    get_all_paginated_data shortServer 50 = ([1, 2], 3) := by
  have h := pagination_termination shortServer 50 3 (by norm_num) (by norm_num)
    (fun i h1 h2 => ⟨[i], some "c", by simp [shortServer, h2], by simp, by decide⟩)
    ⟨[], none, by simp [shortServer], Or.inl rfl⟩
  rw [h]
  decide

/-- C7: the fetch loop terminates for every source (it is a total
function); it issues at most `maxPages` requests no matter what the
source answers; and against a source that always returns a non-empty
item array with a live cursor it stops after exactly `maxPages` requests
(where the loop logs its warning), returning the partial concatenation
of the pages fetched so far. -/
theorem pagination_safety_bound {α : Type} (server : Nat → Option (List α × Option String))
    (maxPages : Nat) (hmax : 1 ≤ maxPages) :
    (get_all_paginated_data server maxPages).2 ≤ maxPages ∧
    ((∀ i, 1 ≤ i → goodResp (server i)) →
      get_all_paginated_data server maxPages = (pagesConcat server 1 maxPages, maxPages)) := by
  obtain ⟨m2, rfl⟩ : ∃ m2, maxPages = m2 + 1 := ⟨maxPages - 1, by omega⟩
  constructor
  · have h := pagLoop_requests_le server (m2 + 1 - 1) 1 ([] : List α)
    unfold get_all_paginated_data
    omega
  · intro hgood
    unfold get_all_paginated_data
    have hsub : m2 + 1 - 1 = m2 := by omega
    rw [hsub]
    rw [pagLoop_good_run server m2 m2 1 [] (le_refl m2)
      (fun i h1 _ => hgood i h1)]
    obtain ⟨items, cur, hsv, hne, hcd⟩ := hgood (1 + m2) (by omega)
    rw [Nat.sub_self]
    rw [pagLoop_bound_stop server (1 + m2) _ items cur hsv hne hcd]
    have hit : itemsOf server (1 + m2) = items := by simp [itemsOf, hsv]
    rw [pagesConcat_succ_right, hit]
    simp [Nat.add_comm]

/-- An endless source for the C7 witness: every page has one item and a
live cursor. -/
def endlessServer : Nat → Option (List Nat × Option String) :=
  fun i => some ([i], some "c")

/-- Witness for C7 at a concrete endless source with bound 3: exactly
three requests, and the three fetched pages are returned. -/
theorem pagination_safety_bound_witness :
    (get_all_paginated_data endlessServer 3).2 ≤ 3 ∧
    get_all_paginated_data endlessServer 3 = ([1, 2, 3], 3) := by
  have h := pagination_safety_bound endlessServer 3 (by norm_num)
  refine ⟨h.1, (h.2 (fun i h1 => ⟨[i], some "c", rfl, by simp, by decide⟩)).trans ?_⟩
  decide

/-- C8: when the request for page `k` fails at the transport level (the
loop sees None) after `k - 1` pages each answered with items and a live
cursor, the fetch stops there and still returns the concatenation of the
items of pages 1 through k-1; nothing already fetched is discarded. -/
theorem pagination_partial_failure {α : Type} (server : Nat → Option (List α × Option String))
    (maxPages k : Nat) (hk1 : 1 ≤ k) (hkb : k ≤ maxPages)
    (hgood : ∀ i, 1 ≤ i → i < k → goodResp (server i))
    (hfail : server k = none) :
    get_all_paginated_data server maxPages = (pagesConcat server 1 (k - 1), k) := by
  unfold get_all_paginated_data
  rw [pagLoop_good_run server (k - 1) (maxPages - 1) 1 [] (by omega)
    (fun i h1 h2 => hgood i h1 (by omega))]
  have h1k : 1 + (k - 1) = k := by omega
  rw [h1k, pagLoop_none server (maxPages - 1 - (k - 1)) k _ hfail]
  simp
  omega

/-- A mid-sequence failing source for the C8 witness: pages 1 and 2
answer, the request for page 3 fails. -/
def failingServer : Nat → Option (List Nat × Option String) :=
  fun i => if i < 3 then some ([i], some "c") else none

/-- Witness for C8 at a concrete source failing on page 3: the two pages
already fetched are returned. -/
theorem pagination_partial_failure_witness :
    get_all_paginated_data failingServer 50 = ([1, 2], 3) := by
  have h := pagination_partial_failure failingServer 50 3 (by norm_num) (by norm_num)
    (fun i h1 h2 => ⟨[i], some "c", by simp [failingServer, h2], by simp, by decide⟩)
    (by simp [failingServer])
  rw [h]
  decide

/-- A found column carries the label it was looked up by. -/
lemma findCol_name (df : Frame) (c : String) (col : Column)
    (h : findCol df c = some col) : col.name = c := by
  have hp := List.find?_some h
  exact of_decide_eq_true hp

/-- The labels of a reindex against a column list are that list. -/
lemma map_name_reindex (df3 : Frame) (cols : List String) (n : Nat) :
    (cols.map (fun c => (findCol df3 c).getD (emptyColumn c n))).map Column.name
      = cols := by
  induction cols with
  | nil => simp
  | cons c cs ih =>
    have hname : ((findCol df3 c).getD (emptyColumn c n)).name = c := by
      cases hfc : findCol df3 c with
      | none => simp [emptyColumn]
      | some col => simp [findCol_name df3 c col hfc]
    simp [hname, ih]

/-- A label present in the frame is found. -/
lemma findCol_isSome (df : Frame) (c : String) (h : hasCol df c = true) :
    ∃ col, findCol df c = some col := by
  have hx := List.any_eq_true.1 h
  obtain ⟨col, hmem, hp⟩ := hx
  have : (findCol df c).isSome := List.find?_isSome.2 ⟨col, hmem, hp⟩
  cases hfc : findCol df c with
  | none => rw [hfc] at this; simp at this
  | some col2 => exact ⟨col2, rfl⟩

/-- Selecting, in order, labels that are all present yields exactly those
labels. -/
lemma map_name_select (df : Frame) (cols : List String)
    (h : ∀ c, c ∈ cols → hasCol df c = true) :
    ((cols.filterMap (fun c => findCol df c)).map Column.name) = cols := by
  induction cols with
  | nil => simp
  | cons c cs ih =>
    obtain ⟨col, hcol⟩ := findCol_isSome df c (h c (List.mem_cons_self c cs))
    rw [List.filterMap_cons]
    rw [hcol]
    simp only [List.map_cons]
    rw [findCol_name df c col hcol, ih (fun c2 hc2 => h c2 (List.mem_cons_of_mem c hc2))]

/-- An events snapshot holding only one schema column plus one unknown
column: the counterexample input for C2. -/
def sparseEventsFrame : Frame :=
  [{ name := "event_ticker", numeric := false, cells := [Cell.str "E1"] },
   { name := "junk", numeric := false, cells := [Cell.str "x"] }]

/-- Counterexample to C2 as stated: on an events input missing most schema
columns, the events reorder returns only the schema columns that were
present (here a single column); the twelve missing schema columns are
not filled with the sentinel, so the output does not have exactly the
declared schema columns.  The unknown column is still dropped and no
error is raised. -/
theorem reorder_totality_cex :
    (events_reorder sparseEventsFrame).map Column.name = ["event_ticker"] ∧
    (events_reorder sparseEventsFrame).map Column.name ≠ expected_events_columns := by
  decide

/-- C2 (amended): the markets reorder is total and exact - for every
input it returns exactly the Schema's columns in the Schema's declared
order, keeping each column present in the (prepared) input and filling
each absent one with the empty sentinel, extras dropped.  The events
reorder is total and keeps schema order and drops extras, but only
selects the schema columns present in the input (after the DATE rename):
missing events schema columns are omitted from the output, not filled. -/
theorem reorder_totality (df : Frame) :
    (markets_reorder df).map Column.name = expected_markets_columns ∧
    (∀ c, c ∈ expected_markets_columns → findCol (markets_prep df) c = none →
      emptyColumn c (nrows (markets_prep df)) ∈ markets_reorder df) ∧
    (∀ c col, c ∈ expected_markets_columns → findCol (markets_prep df) c = some col →
      col ∈ markets_reorder df) ∧
    (events_reorder df).map Column.name =
      expected_events_columns.filter (fun c => hasCol (renameColumn df "DATE" "date") c) := by
  refine ⟨map_name_reindex (markets_prep df) expected_markets_columns _, ?_, ?_, ?_⟩
  · intro c hc hnone
    exact List.mem_map.2 ⟨c, hc, by simp [hnone]⟩
  · intro c col hc hsome
    exact List.mem_map.2 ⟨c, hc, by simp [hsome]⟩
  · exact map_name_select (renameColumn df "DATE" "date") _
      (fun c hc => (List.mem_filter.1 hc).2)

/-- Witness for C2 (amended): on the concrete sparse input the markets
reorder returns exactly the 57 schema columns, and the absent `title`
column comes out filled with the sentinel. -/
theorem reorder_totality_witness :
    (markets_reorder sparseEventsFrame).map Column.name = expected_markets_columns ∧
    emptyColumn "title" (nrows (markets_prep sparseEventsFrame))
      ∈ markets_reorder sparseEventsFrame := by
  refine ⟨(reorder_totality sparseEventsFrame).1, ?_⟩
  exact (reorder_totality sparseEventsFrame).2.1 "title" (by decide) (by decide)

end KalshiDune
